import Mathlib

/-!
Verification development for the fractional-job-scraper repository.

The Python sources are shallowly embedded:
* floats become `ℚ` (all the arithmetic in the code is exact on the inputs
  considered, and the conversion constants are decimal literals);
* `datetime` timestamps become `ℤ`, measured in hours (the staleness logic of
  `_deactivate_stale_jobs` works with `timedelta(hours=...)`);
* `None`-able values become `Option`;
* Python truthiness (`if x:` on floats / strings) is modelled explicitly by
  `truthyQ` / string emptiness tests;
* the small fragment of `re` used by `utils/parsers.py` is modelled by an
  executable backtracking matcher (`seqMatch` below) whose pattern ASTs
  transcribe the regular expressions of the source literally.
-/

/-! ## Small Python-semantics helpers -/

/-- Python float truthiness for an optional numeric value: `None` and `0.0`
are falsy, everything else is truthy. -/
def truthyQ : Option ℚ → Bool
  | none => false
  | some x => decide (x ≠ 0)

/-- Value of an optional numeric, defaulting to `0` (only used under a
`truthyQ` guard, mirroring how the source dereferences the value). -/
def qval (x : Option ℚ) : ℚ := x.getD 0

/-- Whitespace characters matched by Python's `\s` (ASCII range). -/
def isPySpace (c : Char) : Bool :=
  c = ' ' || c = '\t' || c = '\n' || c = '\x0d' || c = '\x0b' || c = '\x0c'

/-- Word characters matched by Python's `\w` (ASCII range): letters, digits
and underscore. -/
def isWordChar (c : Char) : Bool :=
  c.isAlpha || c.isDigit || c = '_'

/-- Lowercasing by character (Python `str.lower`; ASCII range, which covers
every string the classifiers compare against). -/
def pyLower (s : String) : String :=
  String.mk (s.toList.map Char.toLower)

/-- Uppercasing by character (Python `str.upper`). -/
def pyUpper (s : String) : String :=
  String.mk (s.toList.map Char.toUpper)

/-- Fueled worker for `pySplit`; the fuel always exceeds the input length,
so the zero-fuel arm is never reached on the wrapper's inputs. -/
def splitOnF (sep : List Char) : Nat → List Char → List Char → List (List Char)
  | 0, _, acc => [acc.reverse]
  | fuel + 1, s, acc =>
    match s with
    | [] => [acc.reverse]
    | c :: rest =>
      if sep.isPrefixOf (c :: rest) then
        acc.reverse :: splitOnF sep fuel ((c :: rest).drop sep.length) []
      else splitOnF sep fuel rest (c :: acc)

/-- Python `str.split(sep)` for a nonempty separator. -/
def pySplit (sep s : String) : List String :=
  (splitOnF sep.toList (s.toList.length + 1) s.toList []).map String.mk

/-- Boolean substring containment, modelling Python's `needle in haystack`
for strings. -/
def containsSeq (needle haystack : List Char) : Bool :=
  match haystack with
  | [] => needle.isEmpty
  | _ :: t => needle.isPrefixOf haystack || containsSeq needle t

/-- String-level wrapper for `containsSeq`. -/
def subStr (needle haystack : String) : Bool :=
  containsSeq needle.toList haystack.toList

/-! ## Pattern tables (from `utils/parsers.py`) -/

/-- FUNCTION_PATTERNS from `utils/parsers.py` (insertion order of the Python
dict is preserved, because `detect_function` iterates it in that order). -/
def FUNCTION_PATTERNS : List (String × List String) :=
  [ ("finance", ["cfo", "chief financial", "controller", "fp&a", "finance director",
      "vp finance", "head of finance", "financial", "accounting"]),
    ("marketing", ["cmo", "chief marketing", "marketing", "brand", "growth marketing",
      "demand gen", "content", "vp marketing", "head of marketing"]),
    ("sales", ["cro", "chief revenue", "sales", "revenue", "business development",
      "vp sales", "head of sales", "commercial", "go-to-market", "gtm"]),
    ("product", ["cpo", "chief product", "product", "vp product", "head of product"]),
    ("engineering", ["cto", "chief technology", "engineering", "technical", "architect",
      "vp engineering", "head of engineering", "software"]),
    ("operations", ["coo", "chief operating", "operations", "ops", "vp operations",
      "head of operations"]),
    ("people", ["chro", "chief people", "chief human", "hr", "human resources",
      "talent", "people ops", "vp people", "head of people", "head of hr"]),
    ("data", ["cdo", "chief data", "data science", "analytics", "ml", "ai",
      "machine learning", "head of data", "vp data"]),
    ("legal", ["general counsel", "legal", "chief legal", "clo", "compliance"]) ]

/-- SENIORITY_PATTERNS from `utils/parsers.py`, in source order (most
specific tier first).  Note that some patterns carry leading/trailing spaces
and some (like "chief") do not. -/
def SENIORITY_PATTERNS : List (String × List String) :=
  [ ("c_level", ["chief", " ceo", " cfo", " cmo", " cro", " cto", " coo", " cpo",
      " chro", " cdo", " clo"]),
    ("evp", ["evp", "executive vice president"]),
    ("svp", ["svp", "senior vice president", "sr vice president", "sr. vice president"]),
    ("vp", [" vp ", "vice president", " vp,", "vp of"]),
    ("director", ["director"]),
    ("head_of", ["head of", "head,"]) ]

/-! ## Field classifiers (from `utils/parsers.py`) -/

/-- Embedding of `detect_function`: lowercase the title and return the first
category (in `FUNCTION_PATTERNS` order) one of whose patterns occurs as a
substring, defaulting to "other". -/
def detect_function (title : String) : String :=
  let title_lower := pyLower title
  match FUNCTION_PATTERNS.find? (fun p => p.2.any (fun pat => subStr pat title_lower)) with
  | some p => p.1
  | none => "other"

/-- Embedding of `detect_seniority`: the lowercased title is padded with one
space on each side, then the first tier (in `SENIORITY_PATTERNS` order) with
a substring match wins, defaulting to "unknown". -/
def detect_seniority (title : String) : String :=
  let title_lower := " " ++ pyLower title ++ " "
  match SENIORITY_PATTERNS.find? (fun p => p.2.any (fun pat => subStr pat title_lower)) with
  | some p => p.1
  | none => "unknown"

/-- Legal-entity suffixes stripped by `normalize_company_name`, in source
order (the Python loop checks each suffix once, sequentially). -/
def companySuffixes : List String :=
  [", inc.", ", inc", " inc.", " inc",
   ", llc", " llc",
   ", ltd.", ", ltd", " ltd.", " ltd",
   ", corp.", ", corp", " corp.", " corp",
   " corporation",
   ", co.", ", co", " co.",
   " company"]

/-- One pass of the suffix-stripping loop: drop `suf` from the end of `s`
when it is a suffix. -/
def stripSuffixOnce (s : List Char) (suf : String) : List Char :=
  if suf.toList.isSuffixOf s then s.take (s.length - suf.toList.length) else s

/-- Worker for `collapseSpaces`: `prevSpace` records whether the previous
character belonged to a whitespace run already emitted as a single space. -/
def collapseSpacesGo (prevSpace : Bool) : List Char → List Char
  | [] => []
  | c :: t =>
    if isPySpace c then
      if prevSpace then collapseSpacesGo true t else ' ' :: collapseSpacesGo true t
    else c :: collapseSpacesGo false t

/-- Collapse runs of whitespace to single spaces (Python `re.sub('\s+', ' ', s)`). -/
def collapseSpaces (s : List Char) : List Char := collapseSpacesGo false s

/-- Strip leading and trailing whitespace (Python `str.strip`). -/
def pyStrip (s : List Char) : List Char :=
  ((s.dropWhile isPySpace).reverse.dropWhile isPySpace).reverse

/-- Embedding of `normalize_company_name`: lowercase and strip, remove legal
suffixes, drop characters that are neither word characters nor whitespace,
collapse whitespace runs, and strip again. -/
def normalize_company_name (name : String) : String :=
  if name = "" then ""
  else
    let n0 := pyStrip (pyLower name).toList
    let n1 := companySuffixes.foldl stripSuffixOnce n0
    let n2 := n1.filter (fun c => isWordChar c || isPySpace c)
    String.mk (pyStrip (collapseSpaces n2))

/-- Embedding of `calculate_hours_bucket`, including the Python truthiness of
its two float-or-`None` arguments: when both are falsy the bucket is
"not_specified"; when `hours_max` is truthy the midpoint
`((hours_min or 0) + hours_max) / 2` is used, otherwise `hours_min` itself;
buckets are `<= 10`, `<= 20`, `<= 30`, else "30-40" (no upper cap). -/
def calculate_hours_bucket (hours_min hours_max : Option ℚ) : String :=
  if !truthyQ hours_min && !truthyQ hours_max then "not_specified"
  else
    let total := (if truthyQ hours_min then qval hours_min else 0) +
      (if truthyQ hours_max then qval hours_max
       else if truthyQ hours_min then qval hours_min else 0)
    let hours_avg := if truthyQ hours_max then total / 2 else qval hours_min
    if hours_avg ≤ 10 then "1-10"
    else if hours_avg ≤ 20 then "10-20"
    else if hours_avg ≤ 30 then "20-30"
    else "30-40"

/-- Normalized-compensation record returned by `normalize_compensation`
(the Python function returns a dict with these four keys). -/
structure CompNorm where
  hourly_min : Option ℚ := none
  hourly_max : Option ℚ := none
  monthly_min : Option ℚ := none
  monthly_max : Option ℚ := none
  deriving Repr, DecidableEq

/-- Assumed average weekly hours used by `normalize_compensation`: midpoint
of a truthy pair, the single truthy bound if only one is truthy, else the
default of 15 hours/week. -/
def hoursAvgOf (hours_min hours_max : Option ℚ) : ℚ :=
  if truthyQ hours_min && truthyQ hours_max then (qval hours_min + qval hours_max) / 2
  else if truthyQ hours_min then qval hours_min
  else if truthyQ hours_max then qval hours_max
  else 15

/-- WEEKS_PER_MONTH constant from `normalize_compensation`. -/
def WEEKS_PER_MONTH : ℚ := 433 / 100

/-- HOURS_PER_YEAR constant from `normalize_compensation` (40 hrs * 52 weeks). -/
def HOURS_PER_YEAR : ℚ := 2080

/-- Embedding of `normalize_compensation`: converts a parsed compensation
into hourly and monthly equivalents using `hoursAvgOf` and the fixed
constants; guards mirror the Python truthiness tests (`if comp_min:`,
`if comp_min and hours_avg > 0:`). -/
def normalize_compensation (comp_type : String) (comp_min comp_max : Option ℚ)
    (hours_min hours_max : Option ℚ) : CompNorm :=
  if !truthyQ comp_min && !truthyQ comp_max then {}
  else
    let hours_avg := hoursAvgOf hours_min hours_max
    if comp_type = "hourly" then
      { hourly_min := comp_min
        hourly_max := comp_max
        monthly_min := if truthyQ comp_min then
            some (qval comp_min * hours_avg * WEEKS_PER_MONTH) else none
        monthly_max := if truthyQ comp_max then
            some (qval comp_max * hours_avg * WEEKS_PER_MONTH) else none }
    else if comp_type = "monthly" then
      { monthly_min := comp_min
        monthly_max := comp_max
        hourly_min := if truthyQ comp_min && decide (hours_avg > 0) then
            some (qval comp_min / (hours_avg * WEEKS_PER_MONTH)) else none
        hourly_max := if truthyQ comp_max && decide (hours_avg > 0) then
            some (qval comp_max / (hours_avg * WEEKS_PER_MONTH)) else none }
    else if comp_type = "annual" then
      { hourly_min := if truthyQ comp_min then some (qval comp_min / HOURS_PER_YEAR) else none
        monthly_min := if truthyQ comp_min then some (qval comp_min / 12) else none
        hourly_max := if truthyQ comp_max then some (qval comp_max / HOURS_PER_YEAR) else none
        monthly_max := if truthyQ comp_max then some (qval comp_max / 12) else none }
    else {}

/-! ## A small backtracking matcher for the `re` fragment used by the source

The regular expressions in `utils/parsers.py` only quantify single-character
atoms (`\d`, `\s`, small character classes), use capturing groups only of the
form `(\d+)`, and use alternations only of short literal strings.  The AST
below transcribes exactly that fragment; `seqMatchF` enumerates matches in
Python's backtracking priority order (greedy quantifiers longest-first,
alternatives left-first), and `reSearch` implements `re.search`'s
leftmost-match rule. -/

/-- Single-character atoms that can be quantified. -/
inductive HAtom where
  | dig
  | wsp
  | cls (cs : List Char)
  deriving Repr, DecidableEq

/-- Character test of an atom (`\d`, `\s`, or a character class). -/
def atomTest : HAtom → Char → Bool
  | .dig, c => c.isDigit
  | .wsp, c => isPySpace c
  | .cls cs, c => cs.contains c

/-- Regex AST elements: ordered literal alternatives (an empty alternative
encodes an optional group), greedy `*`, `+` and `?` over atoms, the capturing
group `(\d+)`, and the word boundary `\b`. -/
inductive RE where
  | lits (alts : List (List Char))
  | star (a : HAtom)
  | plus (a : HAtom)
  | opt (a : HAtom)
  | grp
  | wb
  deriving Repr

/-- Captured group texts, in group order. -/
abbrev Caps := List (List Char)

/-- All ways to let `a*` consume a prefix of `s`, longest (greediest) first,
as (consumed, rest) pairs. -/
def repSplits (a : HAtom) : List Char → List (List Char × List Char)
  | [] => [([], [])]
  | c :: rest =>
    if atomTest a c then
      ((repSplits a rest).map (fun p => (c :: p.1, p.2))) ++ [([], c :: rest)]
    else [([], c :: rest)]

/-- Last character of `consumed`, falling back to the previous character
(used to thread the character left of the cursor for `\b`). -/
def lastChar (consumed : List Char) (prev : Option Char) : Option Char :=
  match consumed.getLast? with
  | some c => some c
  | none => prev

/-- Word-boundary test at a cursor with character `prev` on the left and the
remaining input `s` on the right (Python `\b`): exactly one side is a word
character. -/
def atBoundary (prev : Option Char) (s : List Char) : Bool :=
  (match prev with | some c => isWordChar c | none => false) !=
    (match s with | c :: _ => isWordChar c | [] => false)

/-- Try each literal alternative in priority order, continuing with `k`. -/
def goAlts (k : Option Char → List Char → List (Caps × List Char)) :
    List (List Char) → Option Char → List Char → List (Caps × List Char)
  | [], _, _ => []
  | a :: rest, prev, s =>
    (if a.isPrefixOf s then k (lastChar a prev) (s.drop a.length) else []) ++
      goAlts k rest prev s

/-- Continue with `k` after each quantifier split, in priority order. -/
def goSplits (k : Option Char → List Char → List (Caps × List Char)) :
    List (List Char × List Char) → Option Char → List (Caps × List Char)
  | [], _ => []
  | (consumed, rest) :: more, prev =>
    k (lastChar consumed prev) rest ++ goSplits k more prev

/-- Continue with `k` after each split of a capturing `(\d+)` group,
recording the consumed digits as a new leading capture. -/
def goGrp (k : Option Char → List Char → List (Caps × List Char)) :
    List (List Char × List Char) → Option Char → List (Caps × List Char)
  | [], _ => []
  | (consumed, rest) :: more, prev =>
    (k (lastChar consumed prev) rest).map (fun r => (consumed :: r.1, r.2)) ++
      goGrp k more prev

/-- Anchored matcher: all matches of the pattern sequence against a prefix of
`s`, in backtracking priority order, each as (captures, remaining input).
The fuel argument only needs to exceed the pattern length. -/
def seqMatchF : Nat → List RE → Option Char → List Char → List (Caps × List Char)
  | 0, _, _, _ => []
  | _ + 1, [], _, s => [([], s)]
  | fuel + 1, r :: ps, prev, s =>
    match r with
    | .lits alts => goAlts (seqMatchF fuel ps) alts prev s
    | .star a => goSplits (seqMatchF fuel ps) (repSplits a s) prev
    | .plus a =>
      match s with
      | c :: rest =>
        if atomTest a c then
          goSplits (seqMatchF fuel ps) ((repSplits a rest).map (fun p => (c :: p.1, p.2))) prev
        else []
      | [] => []
    | .opt a =>
      match s with
      | c :: rest =>
        if atomTest a c then goSplits (seqMatchF fuel ps) [([c], rest), ([], s)] prev
        else goSplits (seqMatchF fuel ps) [([], s)] prev
      | [] => goSplits (seqMatchF fuel ps) [([], s)] prev
    | .grp =>
      match s with
      | c :: rest =>
        if c.isDigit then
          goGrp (seqMatchF fuel ps) ((repSplits .dig rest).map (fun p => (c :: p.1, p.2))) prev
        else []
      | [] => []
    | .wb => if atBoundary prev s then seqMatchF fuel ps prev s else []

/-- Search worker: try an anchored match at every start position from left to
right (with `prev` the character just before the current position), returning
the first match's captures, like `re.search(...).groups()`. -/
def reSearchFrom (pat : List RE) : Option Char → List Char → Option Caps
  | prev, s =>
    match seqMatchF (pat.length + 1) pat prev s with
    | (caps, _) :: _ => some caps
    | [] =>
      match s with
      | [] => none
      | c :: rest => reSearchFrom pat (some c) rest

/-- Model of `re.search` on an already-prepared input, returning the captured
groups of the leftmost match. -/
def reSearch (pat : List RE) (s : List Char) : Option Caps :=
  reSearchFrom pat none s

/-- Numeric value of a captured digit string (Python `float(groups[i])` on a
`(\d+)` capture). -/
def digitsVal (ds : List Char) : ℚ :=
  ((ds.foldl (fun n c => 10 * n + (c.toNat - 48)) 0 : ℕ) : ℚ)

/-! ## Hours extraction (from `utils/parsers.py`) -/

/-- Ordered alternatives of the non-capturing group `(?:hrs?|hours?)`:
Python tries the left branch first and greedy `?` prefers presence. -/
def hrsAlts : List (List Char) :=
  ["hrs".toList, "hr".toList, "hours".toList, "hour".toList]

/-- Ordered alternatives of `(?:per|\/|a)?` (the empty alternative encodes
the optional group being skipped). -/
def perAlts : List (List Char) :=
  ["per".toList, "/".toList, "a".toList, []]

/-- Character class `[-–—to]` of the range separators. -/
def dashCls : HAtom := .cls ['-', '–', '—', 't', 'o']

/-- Character class `[\s-]` used in the "part-time" pattern. -/
def spaceDashCls : HAtom := .cls [' ', '\t', '\n', '\x0d', '\x0b', '\x0c', '-']

/-- Pattern `(\d+)\s*[-–—to]+\s*(\d+)\s*(?:hrs?|hours?)\s*(?:per|\/|a)?\s*week`. -/
def hoursPat1 : List RE :=
  [.grp, .star .wsp, .plus dashCls, .star .wsp, .grp, .star .wsp,
   .lits hrsAlts, .star .wsp, .lits perAlts, .star .wsp, .lits ["week".toList]]

/-- Pattern `(\d+)\s*(?:hrs?|hours?)\s*(?:per|\/|a)?\s*week`. -/
def hoursPat2 : List RE :=
  [.grp, .star .wsp, .lits hrsAlts, .star .wsp, .lits perAlts, .star .wsp,
   .lits ["week".toList]]

/-- Pattern `part[\s-]?time\s*\((\d+)\s*(?:hrs?|hours?)?\)`. -/
def hoursPat3 : List RE :=
  [.lits ["part".toList], .opt spaceDashCls, .lits ["time".toList], .star .wsp,
   .lits ["(".toList], .grp, .star .wsp, .lits (hrsAlts ++ [[]]), .lits [")".toList]]

/-- Pattern `up\s+to\s+(\d+)\s*(?:hrs?|hours?)`. -/
def hoursPat4 : List RE :=
  [.lits ["up".toList], .plus .wsp, .lits ["to".toList], .plus .wsp, .grp,
   .star .wsp, .lits hrsAlts]

/-- Pattern `approximately\s+(\d+)\s*(?:hrs?|hours?)`. -/
def hoursPat5 : List RE :=
  [.lits ["approximately".toList], .plus .wsp, .grp, .star .wsp, .lits hrsAlts]

/-- Pattern `(\d+)\s*[-–—to]+\s*(\d+)\s*hrs?`. -/
def hoursPat6 : List RE :=
  [.grp, .star .wsp, .plus dashCls, .star .wsp, .grp, .star .wsp,
   .lits ["hrs".toList, "hr".toList]]

/-- Pattern `\b(\d+)\s*hrs?\b`. -/
def hoursPat7 : List RE :=
  [.wb, .grp, .star .wsp, .lits ["hrs".toList, "hr".toList], .wb]

/-- Ordered pattern list of `extract_hours`, most specific first. -/
def hoursPatterns : List (List RE) :=
  [hoursPat1, hoursPat2, hoursPat3, hoursPat4, hoursPat5, hoursPat6, hoursPat7]

/-- Scan the ordered patterns: a two-group match returns the range directly;
a one-group match returns `(n, n)` only when `1 <= n <= 50`, otherwise the
scan moves on to the next pattern (the `(\d+)` captures are nonempty by
construction, so Python's truthiness tests on `groups[i]` always pass). -/
def scanHours : List (List RE) → List Char → Option ℚ × Option ℚ
  | [], _ => (none, none)
  | p :: rest, t =>
    match reSearch p t with
    | some [g0, g1] => (some (digitsVal g0), some (digitsVal g1))
    | some [g0] =>
      let hours := digitsVal g0
      if 1 ≤ hours ∧ hours ≤ 50 then (some hours, some hours) else scanHours rest t
    | _ => scanHours rest t

/-- Embedding of `extract_hours`: empty (falsy) text yields `(None, None)`,
otherwise the lowercased text is scanned with the ordered patterns. -/
def extract_hours (text : String) : Option ℚ × Option ℚ :=
  if text = "" then (none, none)
  else scanHours hoursPatterns (pyLower text).toList

/-! ## Location resolver (from `utils/parsers.py`) -/

/-- US state full names from `utils/parsers.py`, in source order. -/
def US_STATES : List String :=
  ["alabama", "alaska", "arizona", "arkansas", "california", "colorado",
   "connecticut", "delaware", "florida", "georgia", "hawaii", "idaho",
   "illinois", "indiana", "iowa", "kansas", "kentucky", "louisiana",
   "maine", "maryland", "massachusetts", "michigan", "minnesota",
   "mississippi", "missouri", "montana", "nebraska", "nevada",
   "new hampshire", "new jersey", "new mexico", "new york",
   "north carolina", "north dakota", "ohio", "oklahoma", "oregon",
   "pennsylvania", "rhode island", "south carolina", "south dakota",
   "tennessee", "texas", "utah", "vermont", "virginia", "washington",
   "west virginia", "wisconsin", "wyoming"]

/-- US state abbreviations from `utils/parsers.py`, aligned with `US_STATES`. -/
def US_STATE_ABBREVS : List String :=
  ["al", "ak", "az", "ar", "ca", "co", "ct", "de", "fl", "ga", "hi", "id",
   "il", "in", "ia", "ks", "ky", "la", "me", "md", "ma", "mi", "mn", "ms",
   "mo", "mt", "ne", "nv", "nh", "nj", "nm", "ny", "nc", "nd", "oh", "ok",
   "or", "pa", "ri", "sc", "sd", "tn", "tx", "ut", "vt", "va", "wa", "wv",
   "wi", "wy"]

/-- Major city names whose presence in the location field implies onsite. -/
def MAJOR_CITIES : List String :=
  ["new york", "san francisco", "los angeles", "chicago", "boston",
   "seattle", "austin", "denver"]

/-- Timezone tokens checked for the `timezone` restriction. -/
def TIMEZONE_TOKENS : List String :=
  ["pst", "est", "cst", "mst", " et ", " pt ", " ct ", " mt ",
   "eastern time", "pacific time"]

/-- Word-boundary search `\b<ab>\b` of a state abbreviation in the location
text (the `re.search(rf'\b{abbrev}\b', loc_lower, re.IGNORECASE)` of the
source; the scanned text and the abbreviation are both lowercase already). -/
def abbrevFound (loc_lower : List Char) (ab : String) : Bool :=
  (reSearch [RE.wb, RE.lits [ab.toList], RE.wb] loc_lower).isSome

/-- Embedding of `detect_location_type`: the type stage checks explicit
remote/hybrid tokens in the location, then major city names, then remote or
hybrid phrases in location-plus-description; the restriction stage (remote
listings only) checks worldwide phrasing, then US-only phrasing, then full
state names in the location or the first 500 description characters, then
word-bounded state abbreviations in the location, then timezone tokens,
defaulting to "usa_only"; non-remote listings get "city_specific". -/
def detect_location_type (location_raw : String) (description : String) :
    String × String × Option String :=
  let loc_lower := pyLower location_raw
  let desc_lower := pyLower description
  let combined := loc_lower ++ " " ++ desc_lower
  let location_type :=
    if subStr "remote" loc_lower then "remote"
    else if subStr "hybrid" loc_lower then "hybrid"
    else if MAJOR_CITIES.any (fun c => subStr c loc_lower) then "onsite"
    else if subStr "fully remote" combined || subStr "remote position" combined ||
        subStr "100% remote" combined then "remote"
    else if subStr "hybrid" combined then "hybrid"
    else "onsite"
  if location_type = "remote" then
    if subStr "worldwide" combined || subStr "global" combined ||
        subStr "anywhere" combined then
      (location_type, "worldwide", none)
    else if subStr "usa only" combined || subStr "us only" combined ||
        subStr "united states only" combined then
      (location_type, "usa_only", none)
    else
      let desc500 := desc_lower.toList.take 500
      match (US_STATES.zip US_STATE_ABBREVS).find?
          (fun p => subStr p.1 loc_lower || containsSeq p.1.toList desc500) with
      | some p => (location_type, "state_specific", some (pyUpper p.2))
      | none =>
        match US_STATE_ABBREVS.find? (abbrevFound loc_lower.toList) with
        | some ab => (location_type, "state_specific", some (pyUpper ab))
        | none =>
          if TIMEZONE_TOKENS.any (fun tz => subStr tz combined) then
            (location_type, "timezone", none)
          else (location_type, "usa_only", none)
  else (location_type, "city_specific", none)

/-! ## Data model (from `models/database.py` and the scraper dictionaries) -/

/-- Column values: the stored columns are strings, floats or datetimes. -/
inductive Val where
  | str (s : String)
  | num (q : ℚ)
  | time (t : ℤ)
  deriving Repr, DecidableEq

/-- Data columns of `FractionalJob` that `job_to_db_dict` populates, apart
from the identity and lifecycle columns modelled as structure fields of
`Row` / `JobDict` below. -/
inductive DataField where
  | source_url
  | title
  | company_name
  | company_name_normalized
  | company_url
  | location_raw
  | location_type
  | location_restriction
  | location_state
  | compensation_type
  | compensation_min
  | compensation_max
  | hourly_rate_min
  | hourly_rate_max
  | monthly_retainer_min
  | monthly_retainer_max
  | hours_per_week_min
  | hours_per_week_max
  | job_type
  | function_category
  | seniority_tier
  | date_posted
  | description_raw
  | description_snippet
  deriving Repr, DecidableEq, Fintype

/-- Database-ready dictionary produced by `job_to_db_dict`: natural key,
lifecycle values and the data columns (a `none` value models Python `None`). -/
structure JobDict where
  source : String
  source_id : String
  date_scraped : ℤ
  last_seen : ℤ
  is_active : Bool
  fields : DataField → Option Val

/-- Persisted `FractionalJob` row (the autoincrement `id` is omitted: the
code never branches on it). -/
structure Row where
  source : String
  source_id : String
  date_scraped : ℤ
  last_seen : ℤ
  is_active : Bool
  fields : DataField → Option Val

/-! ## Indeed adapter (from `scrapers/indeed_scraper.py`) -/

/-- Raw job dictionary yielded by the JobSpy-based Indeed scraper; absent
text fields default to the empty string exactly as the `job.get(key, '')`
calls do. -/
structure RawJob where
  title : String := ""
  description : String := ""
  min_amount : Option ℚ := none
  max_amount : Option ℚ := none
  interval : String := ""
  location : String := ""
  is_remote : Bool := false
  company : String := ""
  company_url : Option String := none
  job_type : String := ""
  date_posted : Option ℤ := none
  job_url : String := ""

/-- Compensation-type classification of `job_to_db_dict`: the JobSpy
`interval` keyword wins; otherwise the magnitude heuristics on a truthy
amount apply; otherwise "not_disclosed". -/
def indeedCompType (job : RawJob) : String :=
  if job.interval = "hourly" then "hourly"
  else if job.interval = "monthly" then "monthly"
  else if job.interval = "yearly" || job.interval = "annually" then "annual"
  else if truthyQ job.min_amount || truthyQ job.max_amount then
    if truthyQ job.max_amount && decide (qval job.max_amount < 500) then "hourly"
    else if truthyQ job.max_amount && decide (qval job.max_amount < 50000) then "monthly"
    else "annual"
  else "not_disclosed"

/-- Source-id derivation of `job_to_db_dict`: when the job URL contains
"jk=", the first 16 characters of the text after the last "jk="; otherwise
`str(hash(job_url))[-16:]`.  Python's `hash` on strings is randomized per
interpreter process (PYTHONHASHSEED), so the fallback is modelled by the
parameter `hashTail`, one function per process. -/
def indeed_source_id (hashTail : String → String) (job_url : String) : String :=
  if subStr "jk=" job_url then String.mk ((((pySplit "jk=" job_url).getLastD "").toList).take 16)
  else hashTail job_url

/-- Embedding of `job_to_db_dict` from `scrapers/indeed_scraper.py`:
normalizes one raw Indeed job into the database dictionary, running the
field classifiers; `now` models the `datetime.utcnow()` calls of the run. -/
def job_to_db_dict (hashTail : String → String) (now : ℤ) (job : RawJob) : JobDict :=
  let comp_type := indeedCompType job
  let hrs := extract_hours job.description
  let normalized_comp :=
    normalize_compensation comp_type job.min_amount job.max_amount hrs.1 hrs.2
  let loc :=
    if job.is_remote then ("remote", "usa_only", (none : Option String))
    else detect_location_type job.location job.description
  { source := "indeed"
    source_id := indeed_source_id hashTail job.job_url
    date_scraped := now
    last_seen := now
    is_active := true
    fields := fun f =>
      match f with
      | .source_url => some (.str job.job_url)
      | .title => some (.str job.title)
      | .company_name => some (.str job.company)
      | .company_name_normalized => some (.str (normalize_company_name job.company))
      | .company_url => job.company_url.map .str
      | .location_raw => some (.str job.location)
      | .location_type => some (.str loc.1)
      | .location_restriction => some (.str loc.2.1)
      | .location_state => loc.2.2.map .str
      | .compensation_type => some (.str comp_type)
      | .compensation_min => job.min_amount.map .num
      | .compensation_max => job.max_amount.map .num
      | .hourly_rate_min => normalized_comp.hourly_min.map .num
      | .hourly_rate_max => normalized_comp.hourly_max.map .num
      | .monthly_retainer_min => normalized_comp.monthly_min.map .num
      | .monthly_retainer_max => normalized_comp.monthly_max.map .num
      | .hours_per_week_min => hrs.1.map .num
      | .hours_per_week_max => hrs.2.map .num
      | .job_type => some (.str job.job_type)
      | .function_category => some (.str (detect_function job.title))
      | .seniority_tier => some (.str (detect_seniority job.title))
      | .date_posted => job.date_posted.map .time
      | .description_snippet =>
          if job.description = "" then none
          else some (.str (String.mk (job.description.toList.take 500)))
      | .description_raw => some (.str job.description) }

/-! ## Reconciliation engine (from `src/main.py`) -/

/-- Natural-key match of a stored row against an incoming dictionary
(the `filter(FractionalJob.source == ..., FractionalJob.source_id == ...)`
lookup of `_upsert_job`). -/
def rowMatches (d : JobDict) (r : Row) : Bool :=
  r.source = d.source && r.source_id = d.source_id

/-- Replace the first row satisfying `p` by its image under `g` (the ORM
mutates the single row object returned by `.first()`). -/
def replaceFirst (p : Row → Bool) (g : Row → Row) : List Row → List Row
  | [] => []
  | r :: rest => if p r then g r :: rest else r :: replaceFirst p g rest

/-- Update path of `_upsert_job`: every dictionary entry except `id` and
`date_scraped` whose value is not `None` is written onto the existing row
(the identity columns are rewritten with their own values), then
`last_seen = utcnow()` and `is_active = True` are forced. -/
def mergeRow (r : Row) (d : JobDict) (now : ℤ) : Row :=
  { source := d.source
    source_id := d.source_id
    date_scraped := r.date_scraped
    last_seen := now
    is_active := true
    fields := fun f =>
      match d.fields f with
      | some v => some v
      | none => r.fields f }

/-- Insert path of `_upsert_job`: `FractionalJob(**job_dict)`. -/
def newRow (d : JobDict) : Row :=
  { source := d.source
    source_id := d.source_id
    date_scraped := d.date_scraped
    last_seen := d.last_seen
    is_active := d.is_active
    fields := d.fields }

/-- Embedding of `_upsert_job`: look up the natural key; update the first
matching row in place, or append a new row; returns `(is_new, store)`. -/
def upsert_job (store : List Row) (d : JobDict) (now : ℤ) : Bool × List Row :=
  match store.find? (rowMatches d) with
  | some _ => (false, replaceFirst (rowMatches d) (fun r => mergeRow r d now) store)
  | none => (true, store ++ [newRow d])

/-- Staleness predicate of `_deactivate_stale_jobs`: same source, currently
active, `last_seen` strictly older than `now - hours`, and (only when the
seen set is nonempty — the `if seen_ids else True` of the source) the stored
`source_id` is not in the seen set. -/
def staleFilter (source : String) (seen_ids : List String) (now hours : ℤ)
    (r : Row) : Bool :=
  r.source = source && r.is_active && decide (r.last_seen < now - hours) &&
    (if seen_ids.isEmpty then true else !(seen_ids.contains r.source_id))

/-- Embedding of `_deactivate_stale_jobs`: mark every row selected by
`staleFilter` inactive and return the new store with the count (default
threshold 48 hours; timestamps are in hours). -/
def deactivate_stale_jobs (store : List Row) (source : String)
    (seen_ids : List String) (now : ℤ) (hours : ℤ := 48) : List Row × Nat :=
  (store.map (fun r => if staleFilter source seen_ids now hours r then
      { r with is_active := false } else r),
   (store.filter (staleFilter source seen_ids now hours)).length)

/-! ## Run accounting (from `src/main.py` and `models/database.py`) -/

/-- Per-run counters accumulated in the `stats` dictionary of
`scrape_indeed`. -/
structure RunStats where
  found : Nat := 0
  new : Nat := 0
  updated : Nat := 0
  errors : Nat := 0
  deriving Repr, DecidableEq

/-- Persisted `ScrapeLog` row: `error_count` has the column default 0 and is
never assigned by `_log_scrape_start` / `_log_scrape_end`. -/
structure ScrapeLogRow where
  source : String
  status : String
  listings_found : Option Nat := none
  listings_new : Option Nat := none
  listings_updated : Option Nat := none
  listings_deactivated : Option Nat := none
  error_message : Option String := none
  error_count : Nat := 0
  deriving Repr, DecidableEq

/-- State threaded through the record loop of `scrape_indeed`. -/
structure LoopSt where
  store : List Row
  stats : RunStats
  seen : List String

/-- One iteration of the `scrape_indeed` record loop.  The Boolean paired
with each raw job abstracts "normalizing or reconciling this record raises
an unexpected exception" (the `except Exception` arm): the record's URL is
counted and added to `seen_ids` before the `try` block either way. -/
def indeed_step (hashTail : String → String) (now : ℤ) (st : LoopSt)
    (rec : RawJob × Bool) : LoopSt :=
  let st := { st with
    stats := { st.stats with found := st.stats.found + 1 }
    seen := st.seen.insert rec.1.job_url }
  if rec.2 then
    { st with stats := { st.stats with errors := st.stats.errors + 1 } }
  else
    let d := job_to_db_dict hashTail now rec.1
    let res := upsert_job st.store d now
    { st with
      store := res.2
      stats := if res.1 then { st.stats with new := st.stats.new + 1 }
               else { st.stats with updated := st.stats.updated + 1 } }

/-- Outcome of one modelled `scrape_indeed` run. -/
structure RunOutcome where
  store : List Row
  stats : RunStats
  deactivated : Nat
  log : ScrapeLogRow

/-- Embedding of `scrape_indeed`: fold the record loop over the jobs the
generator yields, then deactivate stale rows and log success — unless a
run-fatal exception (modelled by `fatal`, carrying `str(e)`) interrupts the
run after the listed records, in which case deactivation is skipped and the
log is finalized as failed with zeroed counts. -/
def scrape_indeed (hashTail : String → String) (records : List (RawJob × Bool))
    (fatal : Option String) (store₀ : List Row) (now : ℤ) : RunOutcome :=
  let fin := records.foldl (indeed_step hashTail now) ⟨store₀, {}, []⟩
  match fatal with
  | some msg =>
    { store := fin.store
      stats := fin.stats
      deactivated := 0
      log := { source := "indeed", status := "failed",
               listings_found := some 0, listings_new := some 0,
               listings_updated := some 0, listings_deactivated := some 0,
               error_message := some msg } }
  | none =>
    let res := deactivate_stale_jobs fin.store "indeed" fin.seen now 48
    { store := res.1
      stats := fin.stats
      deactivated := res.2
      log := { source := "indeed", status := "success",
               listings_found := some fin.stats.found,
               listings_new := some fin.stats.new,
               listings_updated := some fin.stats.updated,
               listings_deactivated := some res.2,
               error_message := none } }

/-! ## Snapshot aggregator (from `create_daily_snapshot` in `src/main.py`) -/

/-- Default-on-falsy string column read: `column or default` in Python
(`None` and the empty string fall to the default; these columns are typed
`String` in the schema). -/
def pyOrStr (v : Option Val) (dflt : String) : String :=
  match v with
  | some (.str s) => if s = "" then dflt else s
  | _ => dflt

/-- Snapshot partition key `job.function_category or 'other'`. -/
def functionKey (r : Row) : String := pyOrStr (r.fields .function_category) "other"

/-- Snapshot partition key `job.seniority_tier or 'unknown'`. -/
def seniorityKey (r : Row) : String := pyOrStr (r.fields .seniority_tier) "unknown"

/-- Snapshot partition key `job.location_type or 'unknown'`. -/
def locationKey (r : Row) : String := pyOrStr (r.fields .location_type) "unknown"

/-- Numeric column read (these columns are `Float` in the schema). -/
def numField (r : Row) (f : DataField) : Option ℚ :=
  match r.fields f with
  | some (.num q) => some q
  | _ => none

/-- Snapshot partition key for the hours bucket. -/
def hoursKey (r : Row) : String :=
  calculate_hours_bucket (numField r .hours_per_week_min) (numField r .hours_per_week_max)

/-- Compensation-disclosure test
`job.compensation_type and job.compensation_type != 'not_disclosed'`. -/
def compDisclosed (r : Row) : Bool :=
  match r.fields .compensation_type with
  | some (.str s) => !(s = "") && !(s = "not_disclosed")
  | _ => false

/-- Model of the `defaultdict(int)` bucket increment `counts[k] += 1` on an
insertion-ordered association list. -/
def bump (k : String) : List (String × Nat) → List (String × Nat)
  | [] => [(k, 1)]
  | (k', n) :: rest => if k' = k then (k', n + 1) :: rest else (k', n) :: bump k rest

/-- Bucket counts of a list of rows under a key function, mirroring the
single pass of the snapshot loop. -/
def tally (key : Row → String) (jobs : List Row) : List (String × Nat) :=
  jobs.foldl (fun acc j => bump (key j) acc) []

/-- Daily `ListingSnapshot` contents (the JSON-serialized breakdowns are
kept as association lists). -/
structure SnapshotData where
  snapshot_date : ℤ
  total_active : Nat
  new_today : Nat
  removed_today : Nat
  by_function : List (String × Nat)
  by_seniority : List (String × Nat)
  by_location_type : List (String × Nat)
  by_hours_bucket : List (String × Nat)
  by_source : List (String × Nat)
  comp_disclosed_count : Nat
  comp_disclosed_pct : ℚ

/-- Embedding of `create_daily_snapshot`: count all active rows into the
partition breakdowns, count rows first scraped since `today` and rows
deactivated within the prior one-day window, and compute the disclosure
percentage (timestamps in hours, so one day is 24). -/
def create_daily_snapshot (store : List Row) (today : ℤ) : SnapshotData :=
  let active_jobs := store.filter (·.is_active)
  let total := active_jobs.length
  let comp_disclosed := (active_jobs.filter compDisclosed).length
  { snapshot_date := today
    total_active := total
    new_today := (store.filter (fun r => decide (r.date_scraped ≥ today))).length
    removed_today := (store.filter (fun r => !r.is_active &&
        decide (r.last_seen ≥ today - 24) && decide (r.last_seen < today))).length
    by_function := tally functionKey active_jobs
    by_seniority := tally seniorityKey active_jobs
    by_location_type := tally locationKey active_jobs
    by_hours_bucket := tally hoursKey active_jobs
    by_source := tally (·.source) active_jobs
    comp_disclosed_count := comp_disclosed
    comp_disclosed_pct := if total > 0 then (comp_disclosed : ℚ) / (total : ℚ) * 100 else 0 }

/-! ## Theorems -/

/-- Helper: the bucket if-chain of `calculate_hours_bucket` always produces
one of the five labels. -/
theorem hoursBucketChain_mem (q : ℚ) :
    (if q ≤ 10 then "1-10" else if q ≤ 20 then "10-20"
     else if q ≤ 30 then "20-30" else "30-40") ∈
      ["1-10", "10-20", "20-30", "30-40", "not_specified"] := by
  split_ifs <;> simp

/-- C10: `calculate_hours_bucket` is total and returns exactly one of the
five labels "1-10", "10-20", "20-30", "30-40", "not_specified"; every
truthy-hours midpoint above 30 — with no upper cap, e.g. a midpoint of 45 —
is bucketed as "30-40", so the snapshot hours buckets label above-40-hour
listings as "30-40". -/
theorem calculate_hours_bucket_buckets (x y : Option ℚ)
    (hy : truthyQ y = true)
    (hmid : 30 < ((if truthyQ x then qval x else 0) + qval y) / 2) :
    calculate_hours_bucket x y = "30-40" ∧
    ∀ a b : Option ℚ, calculate_hours_bucket a b ∈
      ["1-10", "10-20", "20-30", "30-40", "not_specified"] := by
  constructor
  · have h1 : ¬ ((if truthyQ x then qval x else 0) + qval y) / 2 ≤ 10 := by linarith
    have h2 : ¬ ((if truthyQ x then qval x else 0) + qval y) / 2 ≤ 20 := by linarith
    have h3 : ¬ ((if truthyQ x then qval x else 0) + qval y) / 2 ≤ 30 := by linarith
    simp [calculate_hours_bucket, hy, h1, h2, h3]
  · intro a b
    unfold calculate_hours_bucket
    split_ifs <;> first | exact hoursBucketChain_mem _ | simp

/-- Witness for `calculate_hours_bucket_buckets` at hours 40–50 (midpoint 45). -/
theorem calculate_hours_bucket_buckets_witness :
    truthyQ (some (50 : ℚ)) = true ∧
    (30 < ((if truthyQ (some (40 : ℚ)) then qval (some (40 : ℚ)) else 0) +
      qval (some (50 : ℚ))) / 2) ∧
    (calculate_hours_bucket (some 40) (some 50) = "30-40" ∧
     ∀ a b : Option ℚ, calculate_hours_bucket a b ∈
       ["1-10", "10-20", "20-30", "30-40", "not_specified"]) :=
  ⟨rfl, by norm_num [truthyQ, qval],
   calculate_hours_bucket_buckets (some 40) (some 50) rfl (by norm_num [truthyQ, qval])⟩

/-- C7: with the weekly-hours figure held fixed, `normalize_compensation`
converts an hourly rate to a monthly retainer by `rate * hours * 4.33` and
converts that retainer back to exactly the original hourly rate (the model
computes in ℚ, so the Python floating-point round-trip tolerance becomes an
exact identity); in particular $100/hr at the default 15 hrs/week gives a
monthly retainer of 6495 which converts back to $100/hr. -/
theorem normalize_compensation_round_trip (r : ℚ) (hmin hmax : Option ℚ)
    (hr : r ≠ 0) (hpos : 0 < hoursAvgOf hmin hmax) :
    (normalize_compensation "hourly" (some r) (some r) hmin hmax).monthly_min =
      some (r * hoursAvgOf hmin hmax * WEEKS_PER_MONTH) ∧
    (normalize_compensation "monthly"
        (normalize_compensation "hourly" (some r) (some r) hmin hmax).monthly_min
        (normalize_compensation "hourly" (some r) (some r) hmin hmax).monthly_max
        hmin hmax).hourly_min = some r ∧
    (normalize_compensation "monthly"
        (normalize_compensation "hourly" (some r) (some r) hmin hmax).monthly_min
        (normalize_compensation "hourly" (some r) (some r) hmin hmax).monthly_max
        hmin hmax).hourly_max = some r ∧
    (normalize_compensation "hourly" (some 100) (some 100) none none).monthly_min =
      some 6495 ∧
    (normalize_compensation "monthly" (some 6495) (some 6495) none none).hourly_min =
      some 100 := by
  have hW : WEEKS_PER_MONTH ≠ 0 := by norm_num [WEEKS_PER_MONTH]
  have hne : r * hoursAvgOf hmin hmax * WEEKS_PER_MONTH ≠ 0 :=
    mul_ne_zero (mul_ne_zero hr (ne_of_gt hpos)) hW
  have hdiv : r * hoursAvgOf hmin hmax * WEEKS_PER_MONTH /
      (hoursAvgOf hmin hmax * WEEKS_PER_MONTH) = r := by
    rw [mul_assoc]
    exact mul_div_cancel_right₀ r (mul_ne_zero (ne_of_gt hpos) hW)
  refine ⟨?_, ?_, ?_, ?_, ?_⟩
  · simp [normalize_compensation, truthyQ, hr, qval]
  · simp [normalize_compensation, truthyQ, hr, qval, hne, hpos, hdiv]
  · simp [normalize_compensation, truthyQ, hr, qval, hne, hpos, hdiv]
  · norm_num [normalize_compensation, truthyQ, qval, hoursAvgOf, WEEKS_PER_MONTH]
  · norm_num [normalize_compensation, truthyQ, qval, hoursAvgOf, WEEKS_PER_MONTH]
    simp

/-- Witness for `normalize_compensation_round_trip` at $100/hr with no
extracted hours (default 15 hrs/week). -/
theorem normalize_compensation_round_trip_witness :
    ((100 : ℚ) ≠ 0) ∧ (0 < hoursAvgOf none none) ∧
    ((normalize_compensation "hourly" (some 100) (some 100) none none).monthly_min =
       some (100 * hoursAvgOf none none * WEEKS_PER_MONTH) ∧
     (normalize_compensation "monthly"
         (normalize_compensation "hourly" (some 100) (some 100) none none).monthly_min
         (normalize_compensation "hourly" (some 100) (some 100) none none).monthly_max
         none none).hourly_min = some 100 ∧
     (normalize_compensation "monthly"
         (normalize_compensation "hourly" (some 100) (some 100) none none).monthly_min
         (normalize_compensation "hourly" (some 100) (some 100) none none).monthly_max
         none none).hourly_max = some 100 ∧
     (normalize_compensation "hourly" (some 100) (some 100) none none).monthly_min =
       some 6495 ∧
     (normalize_compensation "monthly" (some 6495) (some 6495) none none).hourly_min =
       some 100) :=
  ⟨by norm_num, by norm_num [hoursAvgOf, truthyQ],
   normalize_compensation_round_trip 100 none none (by norm_num)
     (by norm_num [hoursAvgOf, truthyQ])⟩

/-- Helper: one `defaultdict` increment raises the total count by one. -/
theorem sumSnd_bump (k : String) (acc : List (String × Nat)) :
    ((bump k acc).map Prod.snd).sum = ((acc.map Prod.snd).sum) + 1 := by
  induction acc with
  | nil => simp [bump]
  | cons hd tl ih =>
    obtain ⟨k', n⟩ := hd
    by_cases h : k' = k <;> simp [bump, h, ih] <;> omega

/-- Helper: folding the bucket increments over a job list adds exactly the
list length to the total count. -/
theorem sumSnd_tally_aux (key : Row → String) (jobs : List Row) :
    ∀ acc : List (String × Nat),
      ((jobs.foldl (fun a j => bump (key j) a) acc).map Prod.snd).sum =
        ((acc.map Prod.snd).sum) + jobs.length := by
  induction jobs with
  | nil => intro acc; simp
  | cons j tl ih =>
    intro acc
    simp only [List.foldl_cons, List.length_cons]
    rw [ih (bump (key j) acc), sumSnd_bump]
    omega

/-- C6: in any daily snapshot the per-function counts sum to `total_active`,
and the same partition law holds for the per-seniority and per-location-type
breakdowns (each active listing lands in exactly one bucket per partition);
a missing field falls into the partition's default bucket. -/
theorem create_daily_snapshot_partitions (store : List Row) (today : ℤ) :
    ((create_daily_snapshot store today).by_function.map Prod.snd).sum =
      (create_daily_snapshot store today).total_active ∧
    ((create_daily_snapshot store today).by_seniority.map Prod.snd).sum =
      (create_daily_snapshot store today).total_active ∧
    ((create_daily_snapshot store today).by_location_type.map Prod.snd).sum =
      (create_daily_snapshot store today).total_active ∧
    (∀ r : Row, r.fields .function_category = none → functionKey r = "other") ∧
    (∀ r : Row, r.fields .seniority_tier = none → seniorityKey r = "unknown") ∧
    (∀ r : Row, r.fields .location_type = none → locationKey r = "unknown") := by
  refine ⟨?_, ?_, ?_, ?_, ?_, ?_⟩
  · show ((tally functionKey (store.filter (·.is_active))).map Prod.snd).sum =
      (store.filter (·.is_active)).length
    rw [tally, sumSnd_tally_aux]
    simp
  · show ((tally seniorityKey (store.filter (·.is_active))).map Prod.snd).sum =
      (store.filter (·.is_active)).length
    rw [tally, sumSnd_tally_aux]
    simp
  · show ((tally locationKey (store.filter (·.is_active))).map Prod.snd).sum =
      (store.filter (·.is_active)).length
    rw [tally, sumSnd_tally_aux]
    simp
  · intro r h
    simp [functionKey, pyOrStr, h]
  · intro r h
    simp [seniorityKey, pyOrStr, h]
  · intro r h
    simp [locationKey, pyOrStr, h]

/-- Concrete row with no classified fields, used by the snapshot witness. -/
def wSnapRow : Row :=
  { source := "indeed", source_id := "w1", date_scraped := 0, last_seen := 0,
    is_active := true, fields := fun _ => none }

/-- Witness for `create_daily_snapshot_partitions` on a one-row store whose
classification columns are all NULL. -/
theorem create_daily_snapshot_partitions_witness :
    (wSnapRow.fields .function_category = none ∧
     wSnapRow.fields .seniority_tier = none ∧
     wSnapRow.fields .location_type = none) ∧
    ((create_daily_snapshot [wSnapRow] 0).by_function.map Prod.snd).sum =
      (create_daily_snapshot [wSnapRow] 0).total_active ∧
    functionKey wSnapRow = "other" ∧
    seniorityKey wSnapRow = "unknown" ∧
    locationKey wSnapRow = "unknown" :=
  ⟨⟨rfl, rfl, rfl⟩,
   (create_daily_snapshot_partitions [wSnapRow] 0).1,
   (create_daily_snapshot_partitions [wSnapRow] 0).2.2.2.1 wSnapRow rfl,
   (create_daily_snapshot_partitions [wSnapRow] 0).2.2.2.2.1 wSnapRow rfl,
   (create_daily_snapshot_partitions [wSnapRow] 0).2.2.2.2.2 wSnapRow rfl⟩

/-- C3: on a re-sighted listing, `_upsert_job` takes the update path (no new
row), replacing the first matching row by the merged row; the merge
overwrites exactly the fields whose incoming value is non-null, keeps the
stored value of every null incoming field, keeps `date_scraped` at its
first-seen value, and forces `last_seen = now` and `is_active = true`. -/
theorem upsert_job_merge (store : List Row) (d : JobDict) (now : ℤ) (r : Row)
    (h : store.find? (rowMatches d) = some r) :
    (upsert_job store d now).1 = false ∧
    (upsert_job store d now).2 =
      replaceFirst (rowMatches d) (fun x => mergeRow x d now) store ∧
    (∀ f v, d.fields f = some v → (mergeRow r d now).fields f = some v) ∧
    (∀ f, d.fields f = none → (mergeRow r d now).fields f = r.fields f) ∧
    (mergeRow r d now).date_scraped = r.date_scraped ∧
    (mergeRow r d now).last_seen = now ∧
    (mergeRow r d now).is_active = true := by
  unfold upsert_job
  rw [h]
  refine ⟨rfl, rfl, ?_, ?_, rfl, rfl, rfl⟩
  · intro f v hv
    simp [mergeRow, hv]
  · intro f hv
    simp [mergeRow, hv]

/-- Concrete stored row for the upsert-merge witness. -/
def wRow : Row :=
  { source := "indeed", source_id := "a1", date_scraped := 1, last_seen := 1,
    is_active := false,
    fields := fun f =>
      match f with
      | .title => some (.str "Old Title")
      | .location_raw => some (.str "NYC")
      | _ => none }

/-- Concrete incoming dictionary for the upsert-merge witness: non-null
title, null everything else. -/
def wDict : JobDict :=
  { source := "indeed", source_id := "a1", date_scraped := 5, last_seen := 5,
    is_active := true,
    fields := fun f =>
      match f with
      | .title => some (.str "New Title")
      | _ => none }

/-- Witness for `upsert_job_merge` on a one-row store. -/
theorem upsert_job_merge_witness :
    ([wRow].find? (rowMatches wDict) = some wRow) ∧
    ((upsert_job [wRow] wDict 5).1 = false ∧
     (upsert_job [wRow] wDict 5).2 =
       replaceFirst (rowMatches wDict) (fun x => mergeRow x wDict 5) [wRow] ∧
     (∀ f v, wDict.fields f = some v → (mergeRow wRow wDict 5).fields f = some v) ∧
     (∀ f, wDict.fields f = none → (mergeRow wRow wDict 5).fields f = wRow.fields f) ∧
     (mergeRow wRow wDict 5).date_scraped = wRow.date_scraped ∧
     (mergeRow wRow wDict 5).last_seen = 5 ∧
     (mergeRow wRow wDict 5).is_active = true) :=
  ⟨rfl, upsert_job_merge [wRow] wDict 5 wRow rfl⟩

/-- C4: a record whose normalization or reconciliation raises (second
component `true`) is skipped by the `scrape_indeed` loop: the store is
unchanged by that record, the run's error counter increments, the found
counter still increments, the new/updated counters do not, and the fold
continues with the remaining records. -/
theorem indeed_step_record_error (hashTail : String → String) (now : ℤ)
    (st : LoopSt) (job : RawJob) (rest : List (RawJob × Bool)) :
    (indeed_step hashTail now st (job, true)).store = st.store ∧
    (indeed_step hashTail now st (job, true)).stats.errors = st.stats.errors + 1 ∧
    (indeed_step hashTail now st (job, true)).stats.found = st.stats.found + 1 ∧
    (indeed_step hashTail now st (job, true)).stats.new = st.stats.new ∧
    (indeed_step hashTail now st (job, true)).stats.updated = st.stats.updated ∧
    List.foldl (indeed_step hashTail now) st ((job, true) :: rest) =
      List.foldl (indeed_step hashTail now) (indeed_step hashTail now st (job, true)) rest :=
  ⟨rfl, rfl, rfl, rfl, rfl, rfl⟩

/-- C5 counterexample: a completed run with one record-level error persists a
ScrapeLog with status "success" whose `error_count` column still holds its
default 0 — the run's error count (1) is never written to the log, so the
persisted summary does not report it. -/
theorem scrape_log_error_count_not_reported :
    (scrape_indeed (fun _ => "") [(({ job_url := "u" } : RawJob), true)]
        none [] 100).stats.errors = 1 ∧
    (scrape_indeed (fun _ => "") [(({ job_url := "u" } : RawJob), true)]
        none [] 100).log.error_count = 0 ∧
    (scrape_indeed (fun _ => "") [(({ job_url := "u" } : RawJob), true)]
        none [] 100).log.status = "success" :=
  ⟨rfl, rfl, rfl⟩

/-- C5 amended: a completed run's log reports found/new/updated/deactivated
and status "success" (its per-record error count stays at the column default
0 and is only available in the returned stats dictionary); a fatally failed
run is logged "failed" with the error message and zeroed counts; the two
states are distinguished by the recorded status, and the `partial` status is
never written. -/
theorem scrape_log_reporting (hashTail : String → String)
    (records : List (RawJob × Bool)) (store₀ : List Row) (now : ℤ) (msg : String) :
    (scrape_indeed hashTail records none store₀ now).log.status = "success" ∧
    (scrape_indeed hashTail records none store₀ now).log.listings_found =
      some (scrape_indeed hashTail records none store₀ now).stats.found ∧
    (scrape_indeed hashTail records none store₀ now).log.listings_new =
      some (scrape_indeed hashTail records none store₀ now).stats.new ∧
    (scrape_indeed hashTail records none store₀ now).log.listings_updated =
      some (scrape_indeed hashTail records none store₀ now).stats.updated ∧
    (scrape_indeed hashTail records none store₀ now).log.listings_deactivated =
      some (scrape_indeed hashTail records none store₀ now).deactivated ∧
    (scrape_indeed hashTail records none store₀ now).log.error_count = 0 ∧
    (scrape_indeed hashTail records none store₀ now).log.error_message = none ∧
    (scrape_indeed hashTail records (some msg) store₀ now).log.status = "failed" ∧
    (scrape_indeed hashTail records (some msg) store₀ now).log.error_message = some msg ∧
    (scrape_indeed hashTail records (some msg) store₀ now).log.listings_found = some 0 ∧
    (scrape_indeed hashTail records (some msg) store₀ now).log.listings_new = some 0 ∧
    (scrape_indeed hashTail records (some msg) store₀ now).log.error_count = 0 ∧
    ("failed" : String) ≠ "success" :=
  ⟨rfl, rfl, rfl, rfl, rfl, rfl, rfl, rfl, rfl, rfl, rfl, rfl, by decide⟩

/-- Raw listing whose URL has no "jk=" marker, so its source id comes from
the randomized-hash fallback. -/
def c1raw : RawJob :=
  { title := "Fractional CFO", job_url := "https://example.com/jobs/123" }

/-- C1 failure exhibit: the same raw listing ingested in two runs whose
hash-fallback differs (as Python's per-process hash randomization allows)
receives two different source ids, so the second ingestion inserts a second
active row for the same listing instead of updating the first one. -/
theorem indeed_hash_fallback_double_insert :
    subStr "jk=" c1raw.job_url = false ∧
    ((upsert_job [] (job_to_db_dict (fun _ => "1111111111111111") 100 c1raw) 100).2).length
      = 1 ∧
    ((upsert_job
        ((upsert_job [] (job_to_db_dict (fun _ => "1111111111111111") 100 c1raw) 100).2)
        (job_to_db_dict (fun _ => "2222222222222222") 200 c1raw) 200).2).map
      (fun r => (r.source, r.source_id, r.is_active)) =
      [("indeed", "1111111111111111", true), ("indeed", "2222222222222222", true)] :=
  ⟨rfl, rfl, rfl⟩

/-- Stored Indeed row that is 50 hours stale at run time 100. -/
def c2row : Row :=
  { source := "indeed", source_id := "abcdef1234567890", date_scraped := 0,
    last_seen := 50, is_active := true, fields := fun _ => none }

/-- C2 failure exhibit: a run sights the job whose natural key matches the
stored stale row (the source id derived from its URL equals the stored one),
but the record errors, and `scrape_indeed` put the job URL — not the source
id — into `seen_ids`; the staleness pass therefore treats the listing as
unseen and deactivates it even though its key was in the run. -/
theorem scrape_indeed_deactivates_sighted_record :
    indeed_source_id (fun _ => "")
      "https://www.indeed.com/viewjob?jk=abcdef1234567890" = c2row.source_id ∧
    (scrape_indeed (fun _ => "")
        [(({ job_url := "https://www.indeed.com/viewjob?jk=abcdef1234567890" } : RawJob),
          true)] none [c2row] 100).stats.errors = 1 ∧
    ((scrape_indeed (fun _ => "")
        [(({ job_url := "https://www.indeed.com/viewjob?jk=abcdef1234567890" } : RawJob),
          true)] none [c2row] 100).store).map (fun r => (r.source_id, r.is_active)) =
      [("abcdef1234567890", false)] ∧
    (scrape_indeed (fun _ => "")
        [(({ job_url := "https://www.indeed.com/viewjob?jk=abcdef1234567890" } : RawJob),
          true)] none [c2row] 100).deactivated = 1 :=
  ⟨rfl, rfl, rfl, rfl⟩

/-- C9 counterexample: "Mischief Manager" contains the bare pattern "chief"
only inside the longer word "mischief" (there is no standalone " chief "),
yet the classifier returns c_level — the space padding does not prevent
substring false positives for patterns that carry no leading space. -/
theorem detect_seniority_substring_false_positive :
    detect_seniority "Mischief Manager" = "c_level" ∧
    subStr "chief" "mischief" = true ∧
    subStr " chief " " mischief manager " = false :=
  ⟨rfl, rfl, rfl⟩

/-- Helper: the empty needle is contained in every haystack. -/
theorem containsSeq_nil_left (t : List Char) : containsSeq [] t = true := by
  cases t <;> rfl

/-- Helper: substring containment is preserved by prepending a character. -/
theorem containsSeq_cons (n : List Char) (c : Char) (h : List Char)
    (hh : containsSeq n h = true) : containsSeq n (c :: h) = true := by
  unfold containsSeq
  simp [hh]

/-- Helper: substring containment is preserved by appending on the right. -/
theorem containsSeq_append (n h t : List Char)
    (hh : containsSeq n h = true) : containsSeq n (h ++ t) = true := by
  induction h with
  | nil =>
    have : n = [] := by
      simpa [containsSeq, List.isEmpty_iff] using hh
    simp [this, containsSeq_nil_left]
  | cons c h' ih =>
    have hor := hh
    unfold containsSeq at hor
    rcases Bool.or_eq_true_iff.mp hor with hpre | hrest
    · have hp : n <+: (c :: h') := List.isPrefixOf_iff_prefix.mp hpre
      have hp2 : n <+: ((c :: h') ++ t) := hp.trans (List.prefix_append _ _)
      unfold containsSeq
      simp [List.isPrefixOf_iff_prefix]
      exact Or.inl hp2
    · exact containsSeq_cons n c (h' ++ t) (ih hrest)

/-- C9 amended: the padding with boundary spaces only guards the tier
patterns that themselves carry a leading or trailing space (so a bare "CEO"
title matches via the pad while "Paceo" does not), but a pattern without a
leading space — such as "chief", the first c_level pattern — matches as a
bare substring: every title whose lowercase form contains "chief" anywhere,
including inside a longer word, is classified c_level. -/
theorem detect_seniority_bare_chief (title : String)
    (hchief : subStr "chief" (pyLower title) = true) :
    detect_seniority title = "c_level" ∧
    detect_seniority "CEO" = "c_level" ∧
    detect_seniority "Paceo Ltd" = "unknown" := by
  refine ⟨?_, rfl, rfl⟩
  have hpad : subStr "chief" (" " ++ pyLower title ++ " ") = true :=
    containsSeq_cons "chief".toList ' ' ((pyLower title).toList ++ [' '])
      (containsSeq_append "chief".toList (pyLower title).toList [' '] hchief)
  simp only [detect_seniority, SENIORITY_PATTERNS]
  rw [List.find?_cons_of_pos]
  · simp [List.any_cons, hpad]

/-- Witness for `detect_seniority_bare_chief`: "Kerchief Specialist"
contains "chief" only inside "kerchief" and is classified c_level. -/
theorem detect_seniority_bare_chief_witness :
    subStr "chief" (pyLower "Kerchief Specialist") = true ∧
    (detect_seniority "Kerchief Specialist" = "c_level" ∧
     detect_seniority "CEO" = "c_level" ∧
     detect_seniority "Paceo Ltd" = "unknown") :=
  ⟨rfl, detect_seniority_bare_chief "Kerchief Specialist" rfl⟩

/-- C8: `extract_hours` lowercases nonempty text and scans the ordered
pattern list most-specific-first, returning the first successful match: a
two-group (range) match returns `(min, max)` directly, a one-group match
returns `(n, n)` exactly when `1 <= n <= 50` and otherwise the scan
continues with the next pattern, and a pattern without a match contributes
nothing; in particular "10-20 hours per week" gives (10, 20), "15 hrs/week"
gives (15, 15), "up to 25 hours" gives (25, 25), and "120 hrs" gives
(none, none) because 120 fails the sanity window. -/
theorem extract_hours_ordered_scan (t : List Char) (p : List RE)
    (rest : List (List RE)) (g0 g1 : List Char) :
    (reSearch p t = none → scanHours (p :: rest) t = scanHours rest t) ∧
    (reSearch p t = some [g0, g1] →
      scanHours (p :: rest) t = (some (digitsVal g0), some (digitsVal g1))) ∧
    (reSearch p t = some [g0] → ¬(1 ≤ digitsVal g0 ∧ digitsVal g0 ≤ 50) →
      scanHours (p :: rest) t = scanHours rest t) ∧
    (reSearch p t = some [g0] → (1 ≤ digitsVal g0 ∧ digitsVal g0 ≤ 50) →
      scanHours (p :: rest) t = (some (digitsVal g0), some (digitsVal g0))) ∧
    (∀ s : String, ¬ s = "" → extract_hours s = scanHours hoursPatterns (pyLower s).toList) ∧
    extract_hours "10-20 hours per week" = (some 10, some 20) ∧
    extract_hours "15 hrs/week" = (some 15, some 15) ∧
    extract_hours "up to 25 hours" = (some 25, some 25) ∧
    extract_hours "120 hrs" = (none, none) := by
  refine ⟨?_, ?_, ?_, ?_, ?_, rfl, rfl, rfl, rfl⟩
  · intro h
    simp [scanHours, h]
  · intro h
    simp [scanHours, h]
  · intro h hw
    simp [scanHours, h, hw]
  · intro h hw
    simp [scanHours, h, hw]
  · intro s hs
    simp [extract_hours, hs]

/-- Witness for `extract_hours_ordered_scan`: the standalone pattern
`\b(\d+)\s*hrs?\b` matches "120 hrs" with the single capture 120, which
fails the 1–50 window, so the scan falls through to the (empty) remainder of
the pattern list. -/
theorem extract_hours_ordered_scan_witness :
    (reSearch hoursPat7 ("120 hrs".toList) = some [['1', '2', '0']]) ∧
    (¬(1 ≤ digitsVal ['1', '2', '0'] ∧ digitsVal ['1', '2', '0'] ≤ 50)) ∧
    scanHours [hoursPat7] ("120 hrs".toList) = scanHours [] ("120 hrs".toList) :=
  ⟨rfl, by decide,
   (extract_hours_ordered_scan ("120 hrs".toList) hoursPat7 []
     ['1', '2', '0'] []).2.2.1 rfl (by decide)⟩

/-! ## Supporting theorems (not tied to a single claim) -/

/-- Staleness deactivation never deletes a row, and the stale filter holds
exactly for active rows of the source whose `last_seen` is older than the
threshold and (for a nonempty seen set) whose stored `source_id` is not in
the seen set. -/
theorem deactivate_stale_jobs_frame (store : List Row) (source : String)
    (seen : List String) (now hours : ℤ) :
    ((deactivate_stale_jobs store source seen now hours).1).length = store.length ∧
    ∀ r : Row, staleFilter source seen now hours r = true ↔
      (r.source = source ∧ r.is_active = true ∧ r.last_seen < now - hours ∧
        (seen ≠ [] → ¬ r.source_id ∈ seen)) := by
  constructor
  · simp [deactivate_stale_jobs]
  · intro r
    unfold staleFilter
    by_cases hseen : seen.isEmpty
    · have : seen = [] := List.isEmpty_iff.mp hseen
      simp [this]
      tauto
    · have : ¬ seen = [] := fun h => hseen (by simp [h])
      simp [hseen, this]
      tauto

/-- When the source-id derivation is deterministic across the two runs (same
hash fallback, as for every URL carrying "jk="), ingesting the same raw
listing twice starting from an empty store leaves exactly one row: the
second upsert takes the update path, `last_seen` advances to the second
run's time, the row is active, and `date_scraped` keeps the first run's
time. -/
theorem ingest_twice_one_row (raw : RawJob) (hashT : String → String) (t1 t2 : ℤ) :
    ((upsert_job ((upsert_job [] (job_to_db_dict hashT t1 raw) t1).2)
        (job_to_db_dict hashT t2 raw) t2).2).length = 1 ∧
    (upsert_job ((upsert_job [] (job_to_db_dict hashT t1 raw) t1).2)
        (job_to_db_dict hashT t2 raw) t2).1 = false ∧
    ∃ r : Row,
      (upsert_job ((upsert_job [] (job_to_db_dict hashT t1 raw) t1).2)
          (job_to_db_dict hashT t2 raw) t2).2 = [r] ∧
      r.last_seen = t2 ∧ r.is_active = true ∧ r.date_scraped = t1 ∧
      r.source = "indeed" ∧ r.source_id = indeed_source_id hashT raw.job_url := by
  have hm : rowMatches (job_to_db_dict hashT t2 raw)
      (newRow (job_to_db_dict hashT t1 raw)) = true := by
    simp [rowMatches, newRow, job_to_db_dict]
  have hfind : ([newRow (job_to_db_dict hashT t1 raw)].find?
      (rowMatches (job_to_db_dict hashT t2 raw))) =
      some (newRow (job_to_db_dict hashT t1 raw)) :=
    List.find?_cons_of_pos _ hm
  have hstep : upsert_job [newRow (job_to_db_dict hashT t1 raw)]
      (job_to_db_dict hashT t2 raw) t2 =
      (false, [mergeRow (newRow (job_to_db_dict hashT t1 raw))
        (job_to_db_dict hashT t2 raw) t2]) := by
    unfold upsert_job
    rw [hfind]
    simp [replaceFirst, hm]
  refine ⟨?_, ?_, ⟨mergeRow (newRow (job_to_db_dict hashT t1 raw))
      (job_to_db_dict hashT t2 raw) t2, ?_, rfl, rfl, rfl, rfl, rfl⟩⟩
  · show ((upsert_job [newRow (job_to_db_dict hashT t1 raw)]
        (job_to_db_dict hashT t2 raw) t2).2).length = 1
    rw [hstep]
    rfl
  · show (upsert_job [newRow (job_to_db_dict hashT t1 raw)]
        (job_to_db_dict hashT t2 raw) t2).1 = false
    rw [hstep]
  · show (upsert_job [newRow (job_to_db_dict hashT t1 raw)]
        (job_to_db_dict hashT t2 raw) t2).2 = _
    rw [hstep]
